import Mathlib

/-!
Verification of the YouTube Lounge media-player integration
(`src/media_player.py`, class `YtMediaPlayer`) against its natural-language
specification.

The development is a shallow embedding of the Python source:
* the playback data model (`PlaybackState`, the `State` enum of the
  `pyytlounge` client, the cached `_VideoInfo` record) becomes plain Lean
  structures;
* the pure read-projections of the entity facade (`state`, `media_title`,
  `media_position`, ...) become Lean functions on the cached data, with
  Python truthiness (`x and y or None`) modelled explicitly;
* the stateful callback path (`__new_state` / `__update_video_snippet`)
  becomes explicit state passing over a `PlayerData` record, with the
  metadata lookup given as an `Except`-valued oracle (an exception raised by
  the lookup is an `Except.error`);
* the supervision loop (`__subscription_task` / `__subscribe_and_keep_alive`)
  becomes a fuel-indexed interpreter over an abstract control-channel API,
  producing the trace of externally visible events (cache publications,
  sleeps, refresh/connect/subscribe calls, error logging);
* the `manual_reconnect` service and the task handle become a small model of
  the asyncio task lifecycle (cancellation delivery points and the
  re-raising behaviour of awaiting a cancelled task).

Machine integers do not occur; times are modelled as `Nat` ticks and the
float positions of the remote player as `Rat` (only their zero test and
`int()` truncation are relevant to the claims).
-/

namespace YtLounge

/-! ## Playback data model

`pyytlounge` exposes `State` (an enum) and `PlaybackState` (state enum,
`videoId`, `currentTime`, `duration`).  `media_player.py` stores the latest
snapshot in `self._state : PlaybackState | None`. -/

/-- The `State` enum of the pyytlounge client, as enumerated by the spec:
Idle/Off, Starting, Buffering, Playing, Paused, Stopped, Advertisement. -/
inductive YtState
  | idle
  | starting
  | buffering
  | playing
  | paused
  | stopped
  | advertisement
deriving DecidableEq, Repr

/-- One immutable playback snapshot as delivered by the subscription
callback.  `videoId` is nullable; position and duration are seconds.
Python floats are modelled as rationals (only zero tests and truncation
matter for the claims). -/
structure PlaybackState where
  state : YtState
  videoId : Option String
  currentTime : Rat
  duration : Rat
deriving DecidableEq, Repr

/-- Host-side media player state enum (the constructors used by
`media_player.py`: OFF, ON, PLAYING, PAUSED). -/
inductive MediaPlayerState
  | off
  | on
  | playing
  | paused
deriving DecidableEq, Repr

/-- Data schema of a metadata lookup response (`_VideoSnippet` TypedDict,
`media_player.py` lines 45-51). -/
structure VideoSnippet where
  title : String
  description : String
  channelTitle : String
deriving DecidableEq, Repr

/-- Cached metadata record (`_VideoInfo`, `media_player.py` lines 53-65):
the constructor copies the snippet fields and remembers the id it was
resolved for. -/
structure VideoInfo where
  id : String
  title : String
  description : String
  channel_title : String
deriving DecidableEq, Repr

/-- The mutable fields of `YtMediaPlayer` read by the facade and written by
the subscription callback: `_state_time` (observation timestamp, modelled
as a `Nat` tick of the monotone wall clock `utcnow`), `_state` (the
playback state cache) and `_video_info` (the metadata cache). -/
structure PlayerData where
  state_time : Nat
  state : Option PlaybackState
  video_info : Option VideoInfo
deriving DecidableEq, Repr

/-! ## Entity facade read projections

Each function embeds one `@property` of `YtMediaPlayer`.  Python truthiness
is modelled explicitly: `None` is falsy, an object is truthy, a number is
truthy iff nonzero, a string is truthy iff nonempty, so
`x and f(x) or None` returns `None` whenever `x` is `None` or `f(x)` is
falsy. -/

/-- Python `int()` truncation toward zero of a float, on the rational
model.  `Int.div` is T-division (round toward zero), matching CPython. -/
def pyInt (q : Rat) : Int :=
  Int.tdiv q.num q.den

namespace YtMediaPlayer

/-- `state` property (`media_player.py` lines 190-206): `None` maps to OFF;
Playing/Starting/Buffering/Advertisement map to PLAYING; Paused to PAUSED;
Stopped to ON; anything else (Idle) to OFF. -/
def state (st : Option PlaybackState) : MediaPlayerState :=
  match st with
  | none => .off
  | some s =>
    if s.state = .playing ∨ s.state = .starting ∨ s.state = .buffering
        ∨ s.state = .advertisement then
      .playing
    else if s.state = .paused then .paused
    else if s.state = .stopped then .on
    else .off

/-- `media_title` property (lines 233-236):
`self._video_info and self._video_info.title or None`. -/
def media_title (vi : Option VideoInfo) : Option String :=
  match vi with
  | none => none
  | some v => if v.title = "" then none else some v.title

/-- `media_channel` property (lines 238-241):
`self._video_info and self._video_info.channel_title or None`. -/
def media_channel (vi : Option VideoInfo) : Option String :=
  match vi with
  | none => none
  | some v => if v.channel_title = "" then none else some v.channel_title

/-- `media_position` property (lines 243-246):
`self._state and int(self._state.currentTime) or None`. -/
def media_position (st : Option PlaybackState) : Option Int :=
  match st with
  | none => none
  | some s => if pyInt s.currentTime = 0 then none else some (pyInt s.currentTime)

/-- `media_duration` property (lines 256-259):
`self._state and int(self._state.duration) or None`. -/
def media_duration (st : Option PlaybackState) : Option Int :=
  match st with
  | none => none
  | some s => if pyInt s.duration = 0 then none else some (pyInt s.duration)

/-- `media_position_updated_at` property (lines 248-254):
`self._state and self._state_time or None` (a datetime object is always
truthy). -/
def media_position_updated_at (st : Option PlaybackState) (state_time : Nat) :
    Option Nat :=
  match st with
  | none => none
  | some _ => some state_time

end YtMediaPlayer

/-! ## Metadata resolver and subscription callback

`__update_video_snippet` (lines 153-166) and `__new_state` (lines 168-172).
The YouTube Data API call is abstracted as a `lookup` oracle returning
`Except Unit VideoSnippet`; `Except.error` models the call raising an
exception.  There is no `try` in either Python function, so an error
aborts the remainder of the function it occurs in and propagates to the
caller. -/

/-- The memoization test of `__update_video_snippet` (line 155):
`self._video_info and self._state.videoId == self._video_info.id`. -/
def matchesCached (video_info : Option VideoInfo) (vid : String) : Bool :=
  match video_info with
  | some vi => vid == vi.id
  | none => false

/-- `__update_video_snippet` (lines 153-166).  Arguments: whether the
metadata service is configured (`self._yt_api` truthy), the lookup oracle,
the current snapshot cache and the current metadata cache.  Returns the new
metadata cache (or the propagated error) together with the list of media
ids the lookup oracle was invoked on (empty or a singleton).

The Python guard `self._yt_api and self._state and self._state.videoId`
is falsy when the service is missing, the snapshot is `None`, or the
snapshot's id is `None` or the empty string; in that case the metadata
cache is reset to `None` and no lookup happens. -/
def updateVideoSnippet (yt_api : Bool) (lookup : String → Except Unit VideoSnippet)
    (state : Option PlaybackState) (video_info : Option VideoInfo) :
    Except Unit (Option VideoInfo) × List String :=
  match state with
  | some st =>
    match st.videoId with
    | some vid =>
      if yt_api && !(vid == "") then
        if matchesCached video_info vid then
          (.ok video_info, [])
        else
          match lookup vid with
          | .ok snip => (.ok (some ⟨vid, snip.title, snip.description, snip.channelTitle⟩), [vid])
          | .error u => (.error u, [vid])
      else (.ok none, [])
    | none => (.ok none, [])
  | none => (.ok none, [])

/-- Result of one `__new_state` callback invocation: the player data after
the call, the lookup invocations it performed, whether
`self.async_write_ha_state()` (the observer notification, line 172) was
reached, and whether an exception propagated out of the callback. -/
structure StepResult where
  data : PlayerData
  lookups : List String
  wroteHa : Bool
  raised : Bool
deriving DecidableEq, Repr

/-- `__new_state` (lines 168-172): stamp `_state_time` with the current
clock (`now`), overwrite `_state` wholesale with the incoming snapshot,
then run `__update_video_snippet`, then notify observers.  If the snippet
update raises, the cache writes of lines 169-170 have already happened but
the observer notification is skipped and the exception propagates. -/
def newState (yt_api : Bool) (lookup : String → Except Unit VideoSnippet)
    (now : Nat) (st : Option PlaybackState) (d : PlayerData) : StepResult :=
  match updateVideoSnippet yt_api lookup st d.video_info with
  | (.ok vi, ls) =>
    { data := { state_time := now, state := st, video_info := vi }
      lookups := ls, wroteHa := true, raised := false }
  | (.error _, ls) =>
    { data := { state_time := now, state := st, video_info := d.video_info }
      lookups := ls, wroteHa := false, raised := true }

/-- Fold a sequence of timestamped notifications through `__new_state`,
returning the final player data (the cache writes happen even on a raising
step, so the fold continues with the written data). -/
def processAll (yt_api : Bool) (lookup : String → Except Unit VideoSnippet)
    (d : PlayerData) : List (Nat × Option PlaybackState) → PlayerData
  | [] => d
  | (t, n) :: rest =>
    processAll yt_api lookup (newState yt_api lookup t n d).data rest

/-- All lookup invocations performed while folding a notification sequence
through `__new_state`. -/
def collectLookups (yt_api : Bool) (lookup : String → Except Unit VideoSnippet)
    (d : PlayerData) : List (Nat × Option PlaybackState) → List String
  | [] => []
  | (t, n) :: rest =>
    (newState yt_api lookup t n d).lookups ++
      collectLookups yt_api lookup (newState yt_api lookup t n d).data rest

/-! ## Connection supervisor

`__subscription_task` (lines 94-106) and `__subscribe_and_keep_alive`
(lines 108-122), embedded as fuel-indexed interpreters over an abstract
control-channel client.  The client is a state machine `Api σ`: `connected`
and `linked` are the two status queries, `connect` and `refresh_auth` are
the state-changing calls, and `subscribe` blocks until the subscription
ends and reports how it ended (`ended` normally, `raised` with a
non-cancellation exception, `cancelled` with `asyncio.CancelledError` —
cancellation of the supervision task is observed at a suspension point
inside the inner loop and surfaces there).

Each interpreter returns the trace of externally visible events in
execution order.  The playback cache is threaded through because the
reconnect loop publishes a null snapshot (`await self.__new_state(None)`,
line 115), which clears it.  Time-outs of fuel model "still running", never
an extra behaviour of the code. -/

/-- How a blocking `subscribe` call returned. -/
inductive SubOutcome
  | ended
  | raised
  | cancelled
deriving DecidableEq, Repr

/-- Abstract control-channel client (the pyytlounge `YtLoungeApi` surface
used by the supervisor, spec section 6). -/
structure Api (σ : Type) where
  connected : σ → Bool
  linked : σ → Bool
  connect : σ → σ
  refresh_auth : σ → σ
  subscribe : σ → σ × SubOutcome

/-- Externally visible events of the supervision loop, in execution
order.  `publishNone` is `await self.__new_state(None)` (clears the cache,
observers see off/unknown); `sleepEv n` is `await asyncio.sleep(n)`. -/
inductive Ev
  | publishNone
  | sleepEv (seconds : Nat)
  | refreshAuth
  | connectAttempt
  | subscribeEv
  | logError
deriving DecidableEq, Repr

/-- Result of running the reconnect sub-loop. -/
structure LoopRes (σ : Type) where
  env : σ
  cache : Option PlaybackState
  trace : List Ev
  ok : Bool
deriving Repr

/-- The reconnect sub-loop `while not self._api.connected(): ...` of
`__subscribe_and_keep_alive` (lines 113-119).  Each iteration performs, in
order: publish a null snapshot, sleep `CONNECT_RETRY_INTERVAL` (10 s),
refresh the credential if `linked()` is false, attempt `connect()`.  The
loop exits (ok = true) only when `connected()` is observed true; running
out of fuel with `connected()` still false yields ok = false ("still
retrying"). -/
def reconnectLoop {σ : Type} (api : Api σ) :
    Nat → σ → Option PlaybackState → LoopRes σ
  | 0, s, c => ⟨s, c, [], api.connected s⟩
  | n + 1, s, c =>
    if api.connected s then ⟨s, c, [], true⟩
    else
      let s2 := api.connect (if api.linked s then s else api.refresh_auth s)
      let r := reconnectLoop api n s2 none
      ⟨r.env, r.cache,
        Ev.publishNone :: Ev.sleepEv 10 ::
          ((if api.linked s then [] else [Ev.refreshAuth]) ++
            Ev.connectAttempt :: r.trace),
        r.ok⟩

/-- How one run of `__subscribe_and_keep_alive` ended: with a
non-cancellation exception, with `CancelledError`, out of fuel while
still looping, or out of fuel while still reconnecting. -/
inductive RunExit
  | raised
  | cancelled
  | fuelOut
  | connFail
deriving DecidableEq, Repr

/-- Result of running (a suffix of) `__subscribe_and_keep_alive`. -/
structure SkalRes (σ : Type) where
  env : σ
  cache : Option PlaybackState
  trace : List Ev
  exit : RunExit
deriving Repr

/-- The steady-state `while True` loop of `__subscribe_and_keep_alive`
(lines 112-122): run the reconnect sub-loop, then `subscribe`; when
`subscribe` returns normally sleep `SUBSCRIBE_RETRY_INTERVAL` (1 s) and
re-evaluate `connected()`; when it raises, the exception propagates out of
the whole function. -/
def skalLoop {σ : Type} (api : Api σ) :
    Nat → σ → Option PlaybackState → SkalRes σ
  | 0, s, c => ⟨s, c, [], .fuelOut⟩
  | n + 1, s, c =>
    let r := reconnectLoop api n s c
    if r.ok then
      match api.subscribe r.env with
      | (s2, .ended) =>
        let r2 := skalLoop api n s2 r.cache
        ⟨r2.env, r2.cache, r.trace ++ Ev.subscribeEv :: Ev.sleepEv 1 :: r2.trace, r2.exit⟩
      | (s2, .raised) => ⟨s2, r.cache, r.trace ++ [Ev.subscribeEv], .raised⟩
      | (s2, .cancelled) => ⟨s2, r.cache, r.trace ++ [Ev.subscribeEv], .cancelled⟩
    else ⟨r.env, r.cache, r.trace, .connFail⟩

/-- `__subscribe_and_keep_alive` (lines 108-122): the initial connect phase
(`if not self._api.connected(): await self._api.connect()`, no refresh, no
sleep, no null publish) followed by the steady-state loop. -/
def skal {σ : Type} (api : Api σ) (fuel : Nat) (s : σ)
    (c : Option PlaybackState) : SkalRes σ :=
  if api.connected s then skalLoop api fuel s c
  else
    let r := skalLoop api fuel (api.connect s) c
    ⟨r.env, r.cache, Ev.connectAttempt :: r.trace, r.exit⟩

/-- Result of running the outer wrapper `__subscription_task`. -/
structure TaskRes (σ : Type) where
  env : σ
  cache : Option PlaybackState
  trace : List Ev
  exited : Bool
deriving Repr

/-- `__subscription_task` (lines 94-106): run `__subscribe_and_keep_alive`;
on `CancelledError` break out of the loop (clean exit, no logging, no
backoff); on any other exception log it, sleep `ERROR_RETRY_INTERVAL`
(30 s) and restart the inner function from scratch.  `exited = true` means
the task returned (which only the cancellation path achieves); fuel running
out means "still running". -/
def subTask {σ : Type} (api : Api σ) :
    Nat → σ → Option PlaybackState → TaskRes σ
  | 0, s, c => ⟨s, c, [], false⟩
  | n + 1, s, c =>
    let r := skal api n s c
    match r.exit with
    | .cancelled => ⟨r.env, r.cache, r.trace, true⟩
    | .raised =>
      let r2 := subTask api n r.env r.cache
      ⟨r2.env, r2.cache, r.trace ++ Ev.logError :: Ev.sleepEv 30 :: r2.trace, r2.exited⟩
    | _ => ⟨r.env, r.cache, r.trace, false⟩

/-- Test for the `connectAttempt` event. -/
def isConnectAttempt : Ev → Bool
  | .connectAttempt => true
  | _ => false

/-- The prefix of a trace strictly before its first `connectAttempt`
event. -/
def beforeFirstConnect (tr : List Ev) : List Ev :=
  tr.takeWhile fun e => !isConnectAttempt e

/-! ### A concrete scripted client

Used to instantiate the abstract theorems on executable inputs: `connect`
consumes a script of success/failure results, `refresh_auth` a script of
new `linked` values, `subscribe` a script of outcomes. -/

/-- Script-driven control-channel client state. -/
structure ScriptSt where
  conn : Bool
  link : Bool
  connectScript : List Bool
  refreshScript : List Bool
  subScript : List SubOutcome
deriving DecidableEq, Repr

/-- The scripted client. -/
def scriptApi : Api ScriptSt where
  connected s := s.conn
  linked s := s.link
  connect s :=
    match s.connectScript with
    | r :: rest => { s with conn := r, connectScript := rest }
    | [] => s
  refresh_auth s :=
    match s.refreshScript with
    | r :: rest => { s with link := r, refreshScript := rest }
    | [] => s
  subscribe s :=
    match s.subScript with
    | o :: rest => ({ s with subScript := rest }, o)
    | [] => (s, .cancelled)

/-! ## Manual reconnect and the supervision task handle

`manual_reconnect` (lines 124-135) and `__removed_from_hass` (lines
148-151), together with the asyncio semantics they depend on:

* `task.cancel()` requests cancellation; `CancelledError` is delivered at
  the task's current (or first) suspension point.
* Every `await` inside `__subscribe_and_keep_alive` sits inside the
  `try` of `__subscription_task`, whose handler catches `CancelledError`
  and breaks, so the coroutine returns normally and `await task` in
  `manual_reconnect` returns.
* The `await asyncio.sleep(ERROR_RETRY_INTERVAL)` on line 106 sits inside
  the bare `except:` handler, outside the `try`; a `CancelledError`
  delivered there is uncaught, the task finishes cancelled, and
  `await task` re-raises `CancelledError` in `manual_reconnect`.
* A task cancelled before its coroutine ever ran also finishes cancelled,
  and awaiting an already-cancelled task re-raises every time.

The phase of the supervision task at the moment `manual_reconnect` runs is
therefore the deciding input. -/

/-- Where the supervision task currently is: not yet scheduled, suspended
at an await inside the `try` of `__subscription_task` (the whole inner
loop), suspended in the 30 s error-backoff sleep inside the `except:`
handler, finished normally, or finished cancelled. -/
inductive TaskPhase
  | notStarted
  | inInner
  | inBackoff
  | doneClean
  | doneCancelled
deriving DecidableEq, Repr

/-- A supervision task: its identity and current phase. -/
structure TaskRec where
  id : Nat
  phase : TaskPhase
deriving DecidableEq, Repr

/-- A task is alive while it has not finished. -/
def isAlive : TaskPhase → Bool
  | .notStarted => true
  | .inInner => true
  | .inBackoff => true
  | .doneClean => false
  | .doneCancelled => false

/-- Phase the task ends in once a cancellation requested by
`task.cancel()` has been delivered and the task has run to completion:
from inside the `try` the `CancelledError` is caught and the coroutine
returns (`doneClean`); from the backoff sleep or before the first run it
is uncaught (`doneCancelled`); a finished task is unaffected. -/
def afterCancel : TaskPhase → TaskPhase
  | .inInner => .doneClean
  | .inBackoff => .doneCancelled
  | .notStarted => .doneCancelled
  | .doneClean => .doneClean
  | .doneCancelled => .doneCancelled

/-- `self._subscription`, the task handle owned by the entity. -/
structure HandleSt where
  subscription : Option TaskRec
deriving DecidableEq, Repr

/-- Events of one `manual_reconnect` invocation.  Each event is paired (in
`MrResult.events`) with the number of supervision tasks alive immediately
after it. -/
inductive MrEv
  | cancelEv (id : Nat)
  | awaitedEv (id : Nat)
  | awaitRaisedEv (id : Nat)
  | refreshAuthEv
  | connectEv
  | spawnEv (id : Nat)
deriving DecidableEq, Repr

/-- Result of one `manual_reconnect` invocation. -/
structure MrResult where
  st : HandleSt
  events : List (MrEv × Nat)
  raised : Bool
deriving DecidableEq, Repr

/-- `manual_reconnect` (lines 124-135).  With a stored handle: cancel the
task, await it; if the await returns (task phase resolves to `doneClean`)
call `refresh_auth` once, then `connect` once, then create the replacement
task and store it.  If the await re-raises `CancelledError` (task resolves
to `doneCancelled`) the remaining statements are skipped: no refresh, no
connect, no replacement task, and the handle still holds the dead task.
With no stored handle the body reduces to creating the new task.  The
`Nat` paired with each event counts the supervision tasks alive just after
it (a cancel-requested task stays alive until awaited). -/
def manualReconnect (fresh : Nat) (st : HandleSt) : MrResult :=
  match st.subscription with
  | some tr =>
    if afterCancel tr.phase = .doneClean then
      { st := ⟨some ⟨fresh, .notStarted⟩⟩
        events :=
          [(.cancelEv tr.id, if isAlive tr.phase then 1 else 0),
           (.awaitedEv tr.id, 0), (.refreshAuthEv, 0), (.connectEv, 0),
           (.spawnEv fresh, 1)]
        raised := false }
    else
      { st := ⟨some ⟨tr.id, afterCancel tr.phase⟩⟩
        events :=
          [(.cancelEv tr.id, if isAlive tr.phase then 1 else 0),
           (.awaitRaisedEv tr.id, 0)]
        raised := true }
  | none =>
    { st := ⟨some ⟨fresh, .notStarted⟩⟩
      events := [(.spawnEv fresh, 1)]
      raised := false }

/-- `__removed_from_hass` (lines 148-151): cancel any stored task and null
the handle.  (The cancelled task dies at its next suspension point; the
handle is cleared synchronously.) -/
def removedFromHass (st : HandleSt) : HandleSt :=
  match st.subscription with
  | some _ => ⟨none⟩
  | none => ⟨none⟩

/-! ## Concrete instances

Closed inputs used to instantiate the abstract theorems and to evaluate
the code at the scenarios of the spec. -/

/-- Client whose channel is always connected and linked; `subscribe`
consumes a script of outcomes (an empty script ends the run by
cancellation). -/
def cexApi : Api (List SubOutcome) where
  connected _ := true
  linked _ := true
  connect s := s
  refresh_auth s := s
  subscribe s :=
    match s with
    | o :: rest => (rest, o)
    | [] => ([], .cancelled)

/-- Like `cexApi` but `subscribe` can never report cancellation (a run in
which the host never cancels the task). -/
def noCancelApi : Api (List SubOutcome) where
  connected _ := true
  linked _ := true
  connect s := s
  refresh_auth s := s
  subscribe s :=
    match s with
    | o :: rest => (rest, if o = .cancelled then .ended else o)
    | [] => ([], .ended)

/-- Scenario B script: start disconnected and linked; `connect` fails three
times and then succeeds; the first subscription ends normally and the
second is cancelled by the host. -/
def sB : ScriptSt :=
  ⟨false, true, [false, false, false, true], [], [.ended, .cancelled]⟩

/-- Script for an unlinked disconnected client (refresh restores the
credential, connect then succeeds). -/
def sUnlinked : ScriptSt := ⟨false, false, [true], [true], [.cancelled]⟩

/-- Script for a linked but disconnected client. -/
def sLinked : ScriptSt := ⟨false, true, [true], [], [.cancelled]⟩

/-- A playing snapshot for video "v1" at 5 s of 100 s. -/
def snap0 : PlaybackState := ⟨.playing, some "v1", 5, 100⟩

/-- A playing snapshot for video "v1" at position 0 of 100 s. -/
def snapV1 : PlaybackState := ⟨.playing, some "v1", 0, 100⟩

/-- Initial player data: nothing observed yet. -/
def d0 : PlayerData := ⟨0, none, none⟩

/-- A metadata lookup that always succeeds with a fixed snippet. -/
def lkOk : String → Except Unit VideoSnippet :=
  fun _ => .ok ⟨"Title", "Desc", "Channel"⟩

/-- A metadata lookup that always raises. -/
def lkErr : String → Except Unit VideoSnippet :=
  fun _ => .error ()

/-! ## Theorems -/

/-- Truncation of the rational zero is the integer zero. -/
theorem pyInt_zero : pyInt 0 = 0 := rfl

/-- C7: the observable state distinguishes the null snapshot from an
explicit Stopped snapshot — a null snapshot maps to OFF, a Stopped
snapshot to ON (a different, non-off state); Playing, Starting, Buffering
and Advertisement map to PLAYING and Paused maps to PAUSED
(`YtMediaPlayer.state`, `media_player.py` lines 190-206). -/
theorem C7_state_mapping :
    YtMediaPlayer.state none = MediaPlayerState.off ∧
    (∀ s : PlaybackState, s.state = YtState.stopped →
      YtMediaPlayer.state (some s) = MediaPlayerState.on ∧
      YtMediaPlayer.state (some s) ≠ MediaPlayerState.off) ∧
    (∀ s : PlaybackState,
      s.state = YtState.playing ∨ s.state = YtState.starting ∨
        s.state = YtState.buffering ∨ s.state = YtState.advertisement →
      YtMediaPlayer.state (some s) = MediaPlayerState.playing) ∧
    (∀ s : PlaybackState, s.state = YtState.paused →
      YtMediaPlayer.state (some s) = MediaPlayerState.paused) := by
  refine ⟨rfl, ?_, ?_, ?_⟩
  · intro s h
    simp [YtMediaPlayer.state, h]
  · intro s h
    rcases h with h | h | h | h <;> simp [YtMediaPlayer.state, h]
  · intro s h
    simp [YtMediaPlayer.state, h]

/-- C7 witness: the mapping evaluated at concrete snapshots. -/
theorem C7_state_mapping_witness :
    YtMediaPlayer.state (some ⟨YtState.stopped, none, 0, 0⟩) = MediaPlayerState.on ∧
    YtMediaPlayer.state (some ⟨YtState.paused, none, 0, 0⟩) = MediaPlayerState.paused ∧
    YtMediaPlayer.state (some ⟨YtState.buffering, none, 0, 0⟩) = MediaPlayerState.playing :=
  ⟨(C7_state_mapping.2.1 ⟨YtState.stopped, none, 0, 0⟩ rfl).1,
   C7_state_mapping.2.2.2 ⟨YtState.paused, none, 0, 0⟩ rfl,
   C7_state_mapping.2.2.1 ⟨YtState.buffering, none, 0, 0⟩ (Or.inr (Or.inr (Or.inl rfl)))⟩

/-- C9: the truthiness-based projections return null for falsy values —
`media_position` is null when `currentTime` is exactly 0.0,
`media_duration` is null when `duration` is 0.0, and
`media_title`/`media_channel` are null when the resolved title or channel
name is the empty string (`media_player.py` lines 233-259). -/
theorem C9_truthy_projections :
    (∀ s : PlaybackState, s.currentTime = 0 →
      YtMediaPlayer.media_position (some s) = none) ∧
    (∀ s : PlaybackState, s.duration = 0 →
      YtMediaPlayer.media_duration (some s) = none) ∧
    (∀ v : VideoInfo, v.title = "" →
      YtMediaPlayer.media_title (some v) = none) ∧
    (∀ v : VideoInfo, v.channel_title = "" →
      YtMediaPlayer.media_channel (some v) = none) := by
  refine ⟨?_, ?_, ?_, ?_⟩
  · intro s h
    simp [YtMediaPlayer.media_position, h, pyInt_zero]
  · intro s h
    simp [YtMediaPlayer.media_duration, h, pyInt_zero]
  · intro v h
    simp [YtMediaPlayer.media_title, h]
  · intro v h
    simp [YtMediaPlayer.media_channel, h]

/-- C9 witness: position 0.0 and duration 0.0 of a fresh Stopped snapshot,
and empty metadata strings, all project to null. -/
theorem C9_truthy_projections_witness :
    YtMediaPlayer.media_position (some ⟨YtState.playing, some "v1", 0, 100⟩) = none ∧
    YtMediaPlayer.media_duration (some ⟨YtState.stopped, none, 3, 0⟩) = none ∧
    YtMediaPlayer.media_title (some ⟨"v1", "", "d", "c"⟩) = none ∧
    YtMediaPlayer.media_channel (some ⟨"v1", "t", "d", ""⟩) = none :=
  ⟨C9_truthy_projections.1 ⟨YtState.playing, some "v1", 0, 100⟩ rfl,
   C9_truthy_projections.2.1 ⟨YtState.stopped, none, 3, 0⟩ rfl,
   C9_truthy_projections.2.2.1 ⟨"v1", "", "d", "c"⟩ rfl,
   C9_truthy_projections.2.2.2 ⟨"v1", "t", "d", ""⟩ rfl⟩

/-- C1: evaluation of `manual_reconnect` at the failing input.  The claim
says every invocation while a supervision task is running cancels and
awaits it, then calls `refresh_auth` and `connect` once each and starts a
replacement task.  When the running task is suspended in the 30 s
error-backoff sleep (the `await asyncio.sleep(ERROR_RETRY_INTERVAL)` on
line 106 sits inside the bare `except:` handler, outside the `try`, so the
delivered `CancelledError` is uncaught), `await self._subscription`
re-raises: `refresh_auth` and `connect` are never called, no replacement
task is created, and the handle keeps the dead task, which makes every
subsequent invocation re-raise as well.  The single-task part of the claim
(never two supervision tasks alive) does hold in every phase, as does the
claimed sequence when the task is inside its protected inner loop. -/
theorem C1_manual_reconnect_backoff_bug :
    ((manualReconnect 2 ⟨some ⟨1, .inBackoff⟩⟩).raised = true ∧
     (manualReconnect 2 ⟨some ⟨1, .inBackoff⟩⟩).events.map Prod.fst =
       [MrEv.cancelEv 1, MrEv.awaitRaisedEv 1] ∧
     (manualReconnect 2 ⟨some ⟨1, .inBackoff⟩⟩).st.subscription =
       some ⟨1, TaskPhase.doneCancelled⟩) ∧
    (manualReconnect 3 (manualReconnect 2 ⟨some ⟨1, .inBackoff⟩⟩).st).raised = true ∧
    ((manualReconnect 2 ⟨some ⟨1, .inInner⟩⟩).events.map Prod.fst =
       [MrEv.cancelEv 1, MrEv.awaitedEv 1, MrEv.refreshAuthEv, MrEv.connectEv,
        MrEv.spawnEv 2] ∧
     (manualReconnect 2 ⟨some ⟨1, .inInner⟩⟩).raised = false) ∧
    (∀ (st : HandleSt) (fresh : Nat),
      ((manualReconnect fresh st).events.all fun p => decide (p.2 ≤ 1)) = true) := by
  refine ⟨by decide, by decide, by decide, ?_⟩
  intro st fresh
  obtain ⟨sub⟩ := st
  cases sub with
  | none => simp [manualReconnect]
  | some tr =>
    cases h : tr.phase <;>
      simp [manualReconnect, afterCancel, isAlive, h]

/-- C10: `manual_reconnect` with a null task handle (e.g. after
`__removed_from_hass`) skips the cancel/refresh/connect block entirely and
just starts a new supervision task. -/
theorem C10_reconnect_without_prior_task :
    (∀ (st : HandleSt) (fresh : Nat), st.subscription = none →
      (manualReconnect fresh st).events.map Prod.fst = [MrEv.spawnEv fresh] ∧
      (manualReconnect fresh st).raised = false ∧
      (manualReconnect fresh st).st.subscription =
        some ⟨fresh, TaskPhase.notStarted⟩) ∧
    (∀ st : HandleSt, (removedFromHass st).subscription = none) := by
  constructor
  · intro st fresh h
    obtain ⟨sub⟩ := st
    cases sub with
    | none => simp [manualReconnect]
    | some tr => exact absurd h (by simp)
  · intro st
    obtain ⟨sub⟩ := st
    cases sub <;> rfl

/-- C10 witness: a fresh task from the null handle, no refresh/connect
events. -/
theorem C10_reconnect_without_prior_task_witness :
    (manualReconnect 5 ⟨none⟩).events.map Prod.fst = [MrEv.spawnEv 5] ∧
    (manualReconnect 5 ⟨none⟩).raised = false :=
  ⟨(C10_reconnect_without_prior_task.1 ⟨none⟩ 5 rfl).1,
   (C10_reconnect_without_prior_task.1 ⟨none⟩ 5 rfl).2.1⟩

/-! ### Helper lemmas on the callback path -/

/-- Lines 169-170 of `__new_state` write the timestamp and the snapshot
wholesale before the snippet update runs, so they are written whether or
not the lookup raises. -/
theorem newState_writes (a : Bool) (l : String → Except Unit VideoSnippet)
    (t : Nat) (n : Option PlaybackState) (d : PlayerData) :
    (newState a l t n d).data.state = n ∧
    (newState a l t n d).data.state_time = t := by
  rcases h : updateVideoSnippet a l n d.video_info with ⟨e, ls⟩
  cases e <;> simp [newState, h]

/-- Without a configured metadata service the snippet update resets the
metadata cache and performs no lookup. -/
theorem updateVideoSnippet_no_service (l : String → Except Unit VideoSnippet)
    (st : Option PlaybackState) (vi : Option VideoInfo) :
    updateVideoSnippet false l st vi = (.ok none, []) := by
  cases st with
  | none => rfl
  | some s =>
    rcases s with ⟨ss, vid, ct, du⟩
    cases vid <;> rfl

/-- A mismatching (or absent) cached record fails the memoization test. -/
theorem matchesCached_false (vinfo : Option VideoInfo) (vid : String)
    (hmiss : ∀ vi, vinfo = some vi → vi.id ≠ vid) :
    matchesCached vinfo vid = false := by
  cases vinfo with
  | none => rfl
  | some vi =>
    have : vid ≠ vi.id := fun h => hmiss vi rfl h.symm
    simp [matchesCached, this]

/-- Memoization hit: with the service configured, a truthy id equal to the
cached record's id, no lookup happens and the metadata cache is kept. -/
theorem newState_hit (l : String → Except Unit VideoSnippet) (t : Nat)
    (d : PlayerData) (st : PlaybackState) (vid : String) (vi : VideoInfo)
    (hvid : st.videoId = some vid) (hv : vid ≠ "")
    (hd : d.video_info = some vi) (hid : vi.id = vid) :
    (newState true l t (some st) d).lookups = [] ∧
    (newState true l t (some st) d).data.video_info = some vi := by
  have hbe : (vid == "") = false := beq_eq_false_iff_ne.mpr hv
  have hm : matchesCached (some vi) vid = true := by
    simp [matchesCached, hid]
  have hu : updateVideoSnippet true l (some st) (some vi) =
      (.ok (some vi), []) := by
    simp [updateVideoSnippet, hvid, hbe, hm]
  simp [newState, hd, hu]

/-- Memoization miss: with the service configured and a truthy id not
matching the cached record, the lookup is invoked exactly once on that id;
if it succeeds the metadata cache is replaced by the freshly resolved
record. -/
theorem newState_miss (l : String → Except Unit VideoSnippet) (t : Nat)
    (d : PlayerData) (st : PlaybackState) (vid : String)
    (hvid : st.videoId = some vid) (hv : vid ≠ "")
    (hm : matchesCached d.video_info vid = false) :
    (newState true l t (some st) d).lookups = [vid] ∧
    (∀ snip, l vid = .ok snip →
      (newState true l t (some st) d).data.video_info =
        some ⟨vid, snip.title, snip.description, snip.channelTitle⟩) := by
  have hbe : (vid == "") = false := beq_eq_false_iff_ne.mpr hv
  constructor
  · rcases hl : l vid with u | snip <;>
      simp [newState, updateVideoSnippet, hvid, hbe, hm, hl]
  · intro snip hl
    simp [newState, updateVideoSnippet, hvid, hbe, hm, hl]

/-- Folding a split notification list is folding the pieces in turn. -/
theorem processAll_append (a : Bool) (l : String → Except Unit VideoSnippet)
    (d : PlayerData) (l1 l2 : List (Nat × Option PlaybackState)) :
    processAll a l d (l1 ++ l2) = processAll a l (processAll a l d l1) l2 := by
  induction l1 generalizing d with
  | nil => rfl
  | cons p rest ih =>
    obtain ⟨t, n⟩ := p
    simp [processAll, ih]

/-- After processing a notification sequence ending in `(t, n)`, the
playback cache holds exactly `n` and the observation timestamp is `t`. -/
theorem processAll_last (a : Bool) (l : String → Except Unit VideoSnippet)
    (d : PlayerData) (pre : List (Nat × Option PlaybackState)) (t : Nat)
    (n : Option PlaybackState) :
    (processAll a l d (pre ++ [(t, n)])).state = n ∧
    (processAll a l d (pre ++ [(t, n)])).state_time = t := by
  rw [processAll_append]
  exact newState_writes a l t n (processAll a l d pre)

/-- Without a configured metadata service, a whole notification run
performs no lookups at all. -/
theorem collectLookups_no_service (l : String → Except Unit VideoSnippet)
    (ns : List (Nat × Option PlaybackState)) :
    ∀ d : PlayerData, collectLookups false l d ns = [] := by
  induction ns with
  | nil => intro d; rfl
  | cons p rest ih =>
    intro d
    obtain ⟨t, n⟩ := p
    have h : (newState false l t n d).lookups = [] := by
      simp [newState, updateVideoSnippet_no_service]
    calc collectLookups false l d ((t, n) :: rest)
        = (newState false l t n d).lookups ++
            collectLookups false l (newState false l t n d).data rest := rfl
      _ = [] := by rw [h, ih]; rfl

/-- While every notification carries the id already held by the metadata
cache, no further lookups happen. -/
theorem collectLookups_hit (l : String → Except Unit VideoSnippet)
    (vid : String) (hv : vid ≠ "")
    (ns : List (Nat × Option PlaybackState))
    (hall : ∀ p ∈ ns, ∃ st : PlaybackState, p.2 = some st ∧ st.videoId = some vid) :
    ∀ (d : PlayerData) (vi : VideoInfo), d.video_info = some vi → vi.id = vid →
      collectLookups true l d ns = [] := by
  induction ns with
  | nil => intro d vi _ _; rfl
  | cons p rest ih =>
    intro d vi hd hid
    obtain ⟨st, hp2, hvid⟩ := hall p (by simp)
    obtain ⟨t, n⟩ := p
    have hn : n = some st := hp2
    subst hn
    have hs := newState_hit l t d st vid vi hvid hv hd hid
    have hrest : ∀ p ∈ rest, ∃ st : PlaybackState, p.2 = some st ∧ st.videoId = some vid :=
      fun p hp => hall p (by simp [hp])
    calc collectLookups true l d ((t, some st) :: rest)
        = (newState true l t (some st) d).lookups ++
            collectLookups true l (newState true l t (some st) d).data rest := rfl
      _ = [] := by
            rw [hs.1, ih hrest (newState true l t (some st) d).data vi hs.2 hid]
            rfl

/-! ### Claim theorems for the callback path -/

/-- C4: last write wins — after processing notification sequence
`pre ++ [(t, n)]` the playback cache holds exactly `n` (wholesale, no
merging) with observation timestamp `t`, and the timestamp differs between
any two consecutive notifications taken at distinct clock ticks, even when
the snapshots themselves are identical (`__new_state`, lines 168-172). -/
theorem C4_last_write_wins :
    (∀ (a : Bool) (l : String → Except Unit VideoSnippet) (d : PlayerData)
        (pre : List (Nat × Option PlaybackState)) (t : Nat)
        (n : Option PlaybackState),
      (processAll a l d (pre ++ [(t, n)])).state = n ∧
      (processAll a l d (pre ++ [(t, n)])).state_time = t) ∧
    (∀ (a : Bool) (l : String → Except Unit VideoSnippet) (d : PlayerData)
        (pre : List (Nat × Option PlaybackState)) (t1 : Nat)
        (n1 : Option PlaybackState) (t2 : Nat) (n2 : Option PlaybackState),
      t1 ≠ t2 →
      (processAll a l d (pre ++ [(t1, n1), (t2, n2)])).state_time ≠
        (processAll a l d (pre ++ [(t1, n1)])).state_time) := by
  refine ⟨processAll_last, ?_⟩
  intro a l d pre t1 n1 t2 n2 hne
  have e : pre ++ [(t1, n1), (t2, n2)] = (pre ++ [(t1, n1)]) ++ [(t2, n2)] := by
    simp
  rw [e, (processAll_last a l d (pre ++ [(t1, n1)]) t2 n2).2,
    (processAll_last a l d pre t1 n1).2]
  exact hne.symm

/-- C4 witness: a duplicate snapshot delivered at ticks 1 and 2 leaves the
cache equal to the snapshot and changes the timestamp. -/
theorem C4_last_write_wins_witness :
    (processAll true lkOk d0 ([(1, some snap0)] ++ [(2, some snap0)])).state
        = some snap0 ∧
    (processAll true lkOk d0 ([] ++ [(1, some snap0), (2, some snap0)])).state_time ≠
      (processAll true lkOk d0 ([] ++ [(1, some snap0)])).state_time :=
  ⟨(C4_last_write_wins.1 true lkOk d0 [(1, some snap0)] 2 (some snap0)).1,
   C4_last_write_wins.2 true lkOk d0 [] 1 (some snap0) 2 (some snap0) (by decide)⟩

/-- C5: metadata lookup memoization — no lookup without a configured
service; no lookup for a null snapshot, a null id or an empty id; no
lookup when the cached record already carries the snapshot's id; exactly
one lookup (on that id) when the service is configured, the id is truthy
and the cached record does not match; and over a whole run of
notifications all carrying one id, the lookup runs exactly once
(`__update_video_snippet`, lines 153-166). -/
theorem C5_lookup_memoization :
    (∀ (l : String → Except Unit VideoSnippet) (t : Nat)
        (n : Option PlaybackState) (d : PlayerData),
      (newState false l t n d).lookups = []) ∧
    (∀ (a : Bool) (l : String → Except Unit VideoSnippet) (t : Nat)
        (d : PlayerData),
      (newState a l t none d).lookups = []) ∧
    (∀ (a : Bool) (l : String → Except Unit VideoSnippet) (t : Nat)
        (d : PlayerData) (st : PlaybackState),
      st.videoId = none ∨ st.videoId = some "" →
      (newState a l t (some st) d).lookups = []) ∧
    (∀ (a : Bool) (l : String → Except Unit VideoSnippet) (t : Nat)
        (d : PlayerData) (st : PlaybackState) (vid : String) (vi : VideoInfo),
      st.videoId = some vid → d.video_info = some vi → vi.id = vid →
      (newState a l t (some st) d).lookups = []) ∧
    (∀ (l : String → Except Unit VideoSnippet) (t : Nat) (d : PlayerData)
        (st : PlaybackState) (vid : String),
      st.videoId = some vid → vid ≠ "" →
      (∀ vi, d.video_info = some vi → vi.id ≠ vid) →
      (newState true l t (some st) d).lookups = [vid]) ∧
    (∀ (l : String → Except Unit VideoSnippet) (snip : VideoSnippet)
        (vid : String), l vid = .ok snip → vid ≠ "" →
      ∀ (d : PlayerData), (∀ vi, d.video_info = some vi → vi.id ≠ vid) →
      ∀ (ns : List (Nat × Option PlaybackState)),
        (∀ p ∈ ns, ∃ st : PlaybackState, p.2 = some st ∧ st.videoId = some vid) →
      ∀ (t0 : Nat) (st0 : PlaybackState), st0.videoId = some vid →
        collectLookups true l d ((t0, some st0) :: ns) = [vid]) ∧
    (∀ (l : String → Except Unit VideoSnippet) (d : PlayerData)
        (ns : List (Nat × Option PlaybackState)),
      collectLookups false l d ns = []) := by
  refine ⟨?_, ?_, ?_, ?_, ?_, ?_, ?_⟩
  · intro l t n d
    simp [newState, updateVideoSnippet_no_service]
  · intro a l t d
    simp [newState, updateVideoSnippet]
  · intro a l t d st h
    rcases h with h | h <;> simp [newState, updateVideoSnippet, h]
  · intro a l t d st vid vi hvid hd hid
    by_cases hg : (a && !(vid == "")) = true
    · have hm : matchesCached d.video_info vid = true := by
        rw [hd]
        simp [matchesCached, hid]
      simp [newState, updateVideoSnippet, hvid, hg, hm]
    · simp [newState, updateVideoSnippet, hvid, hg]
  · intro l t d st vid hvid hv hmiss
    exact (newState_miss l t d st vid hvid hv
      (matchesCached_false d.video_info vid hmiss)).1
  · intro l snip vid hok hv d hmiss ns hall t0 st0 hvid0
    have hm0 : matchesCached d.video_info vid = false :=
      matchesCached_false d.video_info vid hmiss
    have h1 := newState_miss l t0 d st0 vid hvid0 hv hm0
    calc collectLookups true l d ((t0, some st0) :: ns)
        = (newState true l t0 (some st0) d).lookups ++
            collectLookups true l (newState true l t0 (some st0) d).data ns := rfl
      _ = [vid] := by
            rw [h1.1, collectLookups_hit l vid hv ns hall
              (newState true l t0 (some st0) d).data
              ⟨vid, snip.title, snip.description, snip.channelTitle⟩
              (h1.2 snip hok) rfl]
            rfl
  · intro l d ns
    exact collectLookups_no_service l ns d

/-- C5 witness: over the run `[(2, v1-snapshot), (3, v1-snapshot)]` from an
empty cache exactly one lookup for "v1" happens, and a null snapshot at
tick 1 triggers none. -/
theorem C5_lookup_memoization_witness :
    collectLookups true lkOk d0 ((2, some snapV1) :: [(3, some snapV1)]) = ["v1"] ∧
    (newState true lkOk 1 none d0).lookups = [] := by
  constructor
  · exact C5_lookup_memoization.2.2.2.2.2.1 lkOk ⟨"Title", "Desc", "Channel"⟩ "v1"
      rfl (by decide) d0 (fun vi h => Option.noConfusion h)
      [(3, some snapV1)]
      (by
        intro p hp
        rw [List.mem_singleton] at hp
        subst hp
        exact ⟨snapV1, rfl, rfl⟩)
      2 snapV1 rfl
  · exact C5_lookup_memoization.2.1 true lkOk 1 d0

/-- C6 counterexample: with the metadata service configured and a lookup
that raises, processing a snapshot carrying a fresh media id propagates
the exception out of the state update (`raised = true`) and never reaches
the observer notification of line 172 (`wroteHa = false`).
`__update_video_snippet` (lines 153-166) contains no `try`, so the claim
that lookup errors are swallowed inside the Metadata Resolver and the
enclosing state update completes is false on this input. -/
theorem C6_counterexample_swallow_refuted :
    (newState true lkErr 1 (some snapV1) d0).raised = true ∧
    (newState true lkErr 1 (some snapV1) d0).wroteHa = false := by
  decide

/-- C6 (amended): a metadata lookup error is not swallowed — it aborts the
callback after the cache writes of lines 169-170 (the snapshot and
timestamp are already written, the metadata cache is left unchanged), the
observer notification is skipped, and the exception propagates out of
`__new_state` (to be caught by the outer supervision wrapper, see the C3
theorems). -/
theorem C6_metadata_error_propagates :
    ∀ (l : String → Except Unit VideoSnippet) (now : Nat) (d : PlayerData)
      (st : PlaybackState) (vid : String),
      st.videoId = some vid → vid ≠ "" →
      (∀ vi, d.video_info = some vi → vi.id ≠ vid) →
      l vid = .error () →
      (newState true l now (some st) d).raised = true ∧
      (newState true l now (some st) d).wroteHa = false ∧
      (newState true l now (some st) d).data.state = some st ∧
      (newState true l now (some st) d).data.state_time = now ∧
      (newState true l now (some st) d).data.video_info = d.video_info := by
  intro l now d st vid hvid hv hmiss hl
  have hbe : (vid == "") = false := beq_eq_false_iff_ne.mpr hv
  have hm : matchesCached d.video_info vid = false :=
    matchesCached_false d.video_info vid hmiss
  have hu : updateVideoSnippet true l (some st) d.video_info =
      (.error (), [vid]) := by
    simp [updateVideoSnippet, hvid, hbe, hm, hl]
  simp [newState, hu]

/-- C6 witness: the amended behaviour evaluated at the raising lookup —
the cache writes happened, the observer notification did not. -/
theorem C6_metadata_error_propagates_witness :
    (newState true lkErr 1 (some snapV1) d0).data.state = some snapV1 ∧
    (newState true lkErr 1 (some snapV1) d0).data.state_time = 1 ∧
    (newState true lkErr 1 (some snapV1) d0).data.video_info = none :=
  ⟨(C6_metadata_error_propagates lkErr 1 d0 snapV1 "v1" rfl (by decide)
      (fun vi h => Option.noConfusion h) rfl).2.2.1,
   (C6_metadata_error_propagates lkErr 1 d0 snapV1 "v1" rfl (by decide)
      (fun vi h => Option.noConfusion h) rfl).2.2.2.1,
   (C6_metadata_error_propagates lkErr 1 d0 snapV1 "v1" rfl (by decide)
      (fun vi h => Option.noConfusion h) rfl).2.2.2.2⟩

/-! ### Helper lemmas on the supervision loop -/

/-- The reconnect sub-loop never logs an error and never sleeps the 30 s
backoff (its only events are the null publish, the 10 s sleep, refresh and
connect). -/
theorem reconnectLoop_no_log {σ : Type} (api : Api σ) :
    ∀ (n : Nat) (s : σ) (c : Option PlaybackState),
      Ev.logError ∉ (reconnectLoop api n s c).trace ∧
      Ev.sleepEv 30 ∉ (reconnectLoop api n s c).trace := by
  intro n
  induction n with
  | zero => intro s c; simp [reconnectLoop]
  | succ n ih =>
    intro s c
    by_cases hc : api.connected s
    · simp [reconnectLoop, hc]
    · by_cases hl : api.linked s
      · have ihh := ih (api.connect s) none
        simp [reconnectLoop, hc, hl, ihh.1, ihh.2]
      · have ihh := ih (api.connect (api.refresh_auth s)) none
        simp [reconnectLoop, hc, hl, ihh.1, ihh.2]

/-- `__subscribe_and_keep_alive` never logs an error and never sleeps the
30 s backoff (those belong to the outer wrapper). -/
theorem skalLoop_no_log {σ : Type} (api : Api σ) :
    ∀ (n : Nat) (s : σ) (c : Option PlaybackState),
      Ev.logError ∉ (skalLoop api n s c).trace ∧
      Ev.sleepEv 30 ∉ (skalLoop api n s c).trace := by
  intro n
  induction n with
  | zero => intro s c; simp [skalLoop]
  | succ n ih =>
    intro s c
    have hr := reconnectLoop_no_log api n s c
    by_cases hok : (reconnectLoop api n s c).ok = true
    · rcases hs : api.subscribe (reconnectLoop api n s c).env with ⟨s2, o⟩
      cases o with
      | ended =>
        have ih2 := ih s2 (reconnectLoop api n s c).cache
        simp [skalLoop, hok, hs, hr.1, hr.2, ih2.1, ih2.2]
      | raised => simp [skalLoop, hok, hs, hr.1, hr.2]
      | cancelled => simp [skalLoop, hok, hs, hr.1, hr.2]
    · simp [skalLoop, hok, hr.1, hr.2]

/-- `skal` version of the previous lemma (adds the initial connect
phase). -/
theorem skal_no_log {σ : Type} (api : Api σ) (n : Nat) (s : σ)
    (c : Option PlaybackState) :
    Ev.logError ∉ (skal api n s c).trace ∧
    Ev.sleepEv 30 ∉ (skal api n s c).trace := by
  by_cases hc : api.connected s
  · have h := skalLoop_no_log api n s c
    simp [skal, hc, h.1, h.2]
  · have h := skalLoop_no_log api n (api.connect s) c
    simp [skal, hc, h.1, h.2]

/-- If the client never reports a cancelled subscription, the inner loop
never exits by cancellation. -/
theorem skalLoop_no_cancel {σ : Type} (api : Api σ)
    (hnc : ∀ t : σ, (api.subscribe t).2 ≠ SubOutcome.cancelled) :
    ∀ (n : Nat) (s : σ) (c : Option PlaybackState),
      (skalLoop api n s c).exit ≠ RunExit.cancelled := by
  intro n
  induction n with
  | zero => intro s c; simp [skalLoop]
  | succ n ih =>
    intro s c
    by_cases hok : (reconnectLoop api n s c).ok = true
    · rcases hs : api.subscribe (reconnectLoop api n s c).env with ⟨s2, o⟩
      have hno := hnc (reconnectLoop api n s c).env
      rw [hs] at hno
      cases o with
      | ended =>
        have := ih s2 (reconnectLoop api n s c).cache
        simp [skalLoop, hok, hs, this]
      | raised => simp [skalLoop, hok, hs]
      | cancelled => exact absurd rfl hno
    · simp [skalLoop, hok]

/-- `skal` version of the previous lemma. -/
theorem skal_no_cancel {σ : Type} (api : Api σ)
    (hnc : ∀ t : σ, (api.subscribe t).2 ≠ SubOutcome.cancelled)
    (n : Nat) (s : σ) (c : Option PlaybackState) :
    (skal api n s c).exit ≠ RunExit.cancelled := by
  by_cases hc : api.connected s
  · have h := skalLoop_no_cancel api hnc n s c
    simp [skal, hc, h]
  · have h := skalLoop_no_cancel api hnc n (api.connect s) c
    simp [skal, hc, h]

/-- If the client never reports a cancelled subscription, the supervision
task never returns: it retries without bound. -/
theorem subTask_never_exits {σ : Type} (api : Api σ)
    (hnc : ∀ t : σ, (api.subscribe t).2 ≠ SubOutcome.cancelled) :
    ∀ (n : Nat) (s : σ) (c : Option PlaybackState),
      (subTask api n s c).exited = false := by
  intro n
  induction n with
  | zero => intro s c; rfl
  | succ n ih =>
    intro s c
    rcases hx : (skal api n s c).exit with _ | _ | _ | _
    · simp [subTask, hx, ih]
    · exact absurd hx (skal_no_cancel api hnc n s c)
    · simp [subTask, hx]
    · simp [subTask, hx]

/-! ### Claim theorems for the supervision loop -/

/-- C2: in every iteration of the reconnect sub-loop entered with
`connected()` false, `refresh_auth` is called before the next connect
attempt exactly when `linked()` is false at that iteration
(`__subscribe_and_keep_alive`, lines 112-119). -/
theorem C2_refresh_auth_gating :
    ∀ (σ : Type) (api : Api σ) (n : Nat) (s : σ) (c : Option PlaybackState),
      api.connected s = false →
      (api.linked s = false →
        Ev.refreshAuth ∈ beforeFirstConnect (reconnectLoop api (n+1) s c).trace) ∧
      (api.linked s = true →
        Ev.refreshAuth ∉ beforeFirstConnect (reconnectLoop api (n+1) s c).trace) := by
  intro σ api n s c hc
  constructor
  · intro hl
    simp [reconnectLoop, hc, hl, beforeFirstConnect, isConnectAttempt]
  · intro hl
    simp [reconnectLoop, hc, hl, beforeFirstConnect, isConnectAttempt]

/-- C2 witness: the gating evaluated on scripted clients — with the
credential expired the refresh call appears before the connect attempt;
with a valid credential it does not. -/
theorem C2_refresh_auth_gating_witness :
    Ev.refreshAuth ∈
      beforeFirstConnect (reconnectLoop scriptApi 1 sUnlinked none).trace ∧
    Ev.refreshAuth ∉
      beforeFirstConnect (reconnectLoop scriptApi 1 sLinked none).trace :=
  ⟨(C2_refresh_auth_gating ScriptSt scriptApi 0 sUnlinked none rfl).1 rfl,
   (C2_refresh_auth_gating ScriptSt scriptApi 0 sLinked none rfl).2 rfl⟩

/-- C8: steady-state ordering of the supervisor
(`__subscribe_and_keep_alive`, lines 108-122).  While `connected()` is
false each pass performs, in order, the null publish, the 10 s sleep, the
conditional refresh and the connect attempt; the sub-loop only reports
success with `connected()` actually true, and (entered disconnected) its
last action before exiting is a connect attempt; once it succeeds,
`subscribe` runs and a 1 s sleep follows its normal return before the
connected flag is re-evaluated; the Scenario-B script (connect fails three
times, then succeeds) produces exactly the expected trace with one 10 s
sleep between consecutive attempts. -/
theorem C8_reconnect_phase_order :
    (∀ (σ : Type) (api : Api σ) (n : Nat) (s : σ) (c : Option PlaybackState),
      api.connected s = false →
      ∃ rest, (reconnectLoop api (n + 1) s c).trace =
        Ev.publishNone :: Ev.sleepEv 10 ::
          ((if api.linked s then [] else [Ev.refreshAuth]) ++
            Ev.connectAttempt :: rest)) ∧
    (∀ (σ : Type) (api : Api σ) (n : Nat) (s : σ) (c : Option PlaybackState),
      (reconnectLoop api n s c).ok = true →
      api.connected (reconnectLoop api n s c).env = true) ∧
    (∀ (σ : Type) (api : Api σ) (n : Nat) (s : σ) (c : Option PlaybackState),
      api.connected s = false → (reconnectLoop api n s c).ok = true →
      ∃ pre, (reconnectLoop api n s c).trace = pre ++ [Ev.connectAttempt]) ∧
    (∀ (σ : Type) (api : Api σ) (n : Nat) (s : σ) (c : Option PlaybackState),
      (reconnectLoop api n s c).ok = true →
      (api.subscribe (reconnectLoop api n s c).env).2 = SubOutcome.ended →
      ∃ tail, (skalLoop api (n + 1) s c).trace =
        (reconnectLoop api n s c).trace ++
          Ev.subscribeEv :: Ev.sleepEv 1 :: tail) ∧
    ((skal scriptApi 5 sB none).trace =
      [Ev.connectAttempt, Ev.publishNone, Ev.sleepEv 10, Ev.connectAttempt,
       Ev.publishNone, Ev.sleepEv 10, Ev.connectAttempt, Ev.publishNone,
       Ev.sleepEv 10, Ev.connectAttempt, Ev.subscribeEv, Ev.sleepEv 1,
       Ev.subscribeEv] ∧
     (skal scriptApi 5 sB none).exit = RunExit.cancelled) := by
  refine ⟨?_, ?_, ?_, ?_, by decide⟩
  · intro σ api n s c hc
    exact ⟨(reconnectLoop api n
        (api.connect (if api.linked s then s else api.refresh_auth s)) none).trace,
      by simp [reconnectLoop, hc]⟩
  · intro σ api n
    induction n with
    | zero =>
      intro s c h
      simpa [reconnectLoop] using h
    | succ n ih =>
      intro s c h
      by_cases hc : api.connected s
      · simp [reconnectLoop, hc]
      · have h2 : (reconnectLoop api n
            (api.connect (if api.linked s then s else api.refresh_auth s)) none).ok
              = true := by
          simpa [reconnectLoop, hc] using h
        have := ih (api.connect (if api.linked s then s else api.refresh_auth s))
          none h2
        simpa [reconnectLoop, hc] using this
  · intro σ api n
    induction n with
    | zero =>
      intro s c hc h
      rw [show (reconnectLoop api 0 s c).ok = api.connected s from rfl, hc] at h
      exact absurd h (by simp)
    | succ n ih =>
      intro s c hc h
      by_cases hc2 : api.connected
          (api.connect (if api.linked s then s else api.refresh_auth s))
      · have htr : (reconnectLoop api n
            (api.connect (if api.linked s then s else api.refresh_auth s))
              none).trace = [] := by
          cases n <;> simp [reconnectLoop, hc2]
        exact ⟨Ev.publishNone :: Ev.sleepEv 10 ::
            (if api.linked s then [] else [Ev.refreshAuth]),
          by simp [reconnectLoop, hc, htr]⟩
      · have hok2 : (reconnectLoop api n
            (api.connect (if api.linked s then s else api.refresh_auth s))
              none).ok = true := by
          simpa [reconnectLoop, hc] using h
        obtain ⟨pre2, hpre2⟩ := ih
          (api.connect (if api.linked s then s else api.refresh_auth s))
          none (by simpa using hc2) hok2
        exact ⟨Ev.publishNone :: Ev.sleepEv 10 ::
            ((if api.linked s then [] else [Ev.refreshAuth]) ++
              Ev.connectAttempt :: pre2),
          by simp [reconnectLoop, hc, hpre2]⟩
  · intro σ api n s c hok hend
    rcases hs : api.subscribe (reconnectLoop api n s c).env with ⟨s2, o⟩
    rw [hs] at hend
    dsimp at hend
    subst hend
    exact ⟨(skalLoop api n s2 (reconnectLoop api n s c).cache).trace,
      by simp [skalLoop, hok, hs]⟩

/-- C8 witness: a scripted disconnected client whose connect succeeds —
the sub-loop reports success only with `connected()` really true. -/
theorem C8_reconnect_phase_order_witness :
    scriptApi.connected (reconnectLoop scriptApi 2 sLinked none).env = true :=
  C8_reconnect_phase_order.2.1 ScriptSt scriptApi 2 sLinked none (by decide)

/-- C3 counterexample: the script in which `subscribe` raises a
non-cancellation exception while `connected()` stays true (for instance a
metadata lookup error propagating out of the callback, see C6).  The
wrapper logs the error, sleeps 30 s and resubscribes, but no null snapshot
is ever published: the cache keeps the playing snapshot throughout and the
observable state never transitions to off/unknown, refuting that conjunct
of the claim. -/
theorem C3_counterexample_no_off_transition :
    (subTask cexApi 3 [SubOutcome.raised, SubOutcome.cancelled]
        (some snap0)).trace =
      [Ev.subscribeEv, Ev.logError, Ev.sleepEv 30, Ev.subscribeEv] ∧
    Ev.publishNone ∉
      (subTask cexApi 3 [SubOutcome.raised, SubOutcome.cancelled]
        (some snap0)).trace ∧
    (subTask cexApi 3 [SubOutcome.raised, SubOutcome.cancelled]
        (some snap0)).cache = some snap0 ∧
    YtMediaPlayer.state
      (subTask cexApi 3 [SubOutcome.raised, SubOutcome.cancelled]
        (some snap0)).cache = MediaPlayerState.playing := by
  decide

/-- C3 (amended): outer-wrapper behaviour of `__subscription_task` (lines
94-106).  On a cancellation from the inner loop the task exits cleanly
with no error logging and no 30 s backoff sleep; on any other exception it
logs, sleeps 30 s and restarts the inner loop, which (entered
disconnected) begins with its connect phase; if cancellation never
arrives, the task never returns (unbounded retries).  The observable state
does not transition to off/unknown as part of the error handling itself:
the cache is cleared only when the restarted loop observes `connected()`
false (see the counterexample). -/
theorem C3_supervisor_error_handling :
    (∀ (σ : Type) (api : Api σ) (n : Nat) (s : σ) (c : Option PlaybackState),
      (skal api n s c).exit = RunExit.cancelled →
      (subTask api (n + 1) s c).exited = true ∧
      (subTask api (n + 1) s c).trace = (skal api n s c).trace ∧
      Ev.logError ∉ (subTask api (n + 1) s c).trace ∧
      Ev.sleepEv 30 ∉ (subTask api (n + 1) s c).trace) ∧
    (∀ (σ : Type) (api : Api σ) (n : Nat) (s : σ) (c : Option PlaybackState),
      (skal api n s c).exit = RunExit.raised →
      (subTask api (n + 1) s c).trace =
        (skal api n s c).trace ++ Ev.logError :: Ev.sleepEv 30 ::
          (subTask api n (skal api n s c).env (skal api n s c).cache).trace) ∧
    (∀ (σ : Type) (api : Api σ) (m : Nat) (s : σ) (c : Option PlaybackState),
      api.connected s = false →
      ∃ t, (subTask api (m + 1) s c).trace = Ev.connectAttempt :: t) ∧
    (∀ (σ : Type) (api : Api σ),
      (∀ t : σ, (api.subscribe t).2 ≠ SubOutcome.cancelled) →
      ∀ (n : Nat) (s : σ) (c : Option PlaybackState),
        (subTask api n s c).exited = false) := by
  refine ⟨?_, ?_, ?_, ?_⟩
  · intro σ api n s c h
    have hno := skal_no_log api n s c
    refine ⟨by simp [subTask, h], by simp [subTask, h], ?_, ?_⟩
    · rw [show (subTask api (n + 1) s c).trace = (skal api n s c).trace from
        by simp [subTask, h]]
      exact hno.1
    · rw [show (subTask api (n + 1) s c).trace = (skal api n s c).trace from
        by simp [subTask, h]]
      exact hno.2
  · intro σ api n s c h
    simp [subTask, h]
  · intro σ api m s c hc
    have ht0 : (skal api m s c).trace =
        Ev.connectAttempt :: (skalLoop api m (api.connect s) c).trace := by
      simp [skal, hc]
    rcases hx : (skal api m s c).exit with _ | _ | _ | _
    · exact ⟨(skalLoop api m (api.connect s) c).trace ++
          Ev.logError :: Ev.sleepEv 30 ::
            (subTask api m (skal api m s c).env (skal api m s c).cache).trace,
        by simp [subTask, hx, ht0]⟩
    · exact ⟨(skalLoop api m (api.connect s) c).trace,
        by simp [subTask, hx, ht0]⟩
    · exact ⟨(skalLoop api m (api.connect s) c).trace,
        by simp [subTask, hx, ht0]⟩
    · exact ⟨(skalLoop api m (api.connect s) c).trace,
        by simp [subTask, hx, ht0]⟩
  · intro σ api hnc
    exact subTask_never_exits api hnc

/-- C3 witness: a host cancellation ends the task cleanly; a client that
never reports cancellation keeps the task running forever. -/
theorem C3_supervisor_error_handling_witness :
    (subTask cexApi 2 [SubOutcome.cancelled] none).exited = true ∧
    (subTask noCancelApi 3 [SubOutcome.raised] none).exited = false :=
  ⟨(C3_supervisor_error_handling.1 (List SubOutcome) cexApi 1
      [SubOutcome.cancelled] none (by decide)).1,
   C3_supervisor_error_handling.2.2.2 (List SubOutcome) noCancelApi
     (by
       intro t
       rcases t with _ | ⟨o, rest⟩
       · simp [noCancelApi]
       · cases o <;> simp [noCancelApi])
     3 [SubOutcome.raised] none⟩

end YtLounge
